import Mathlib

/-!
Verification of the sailTrim telemetry core against its specification.

The development shallow-embeds three source modules:

* `nmea200_parser.py`  — binary NMEA2000 record decoding (`Nmea` namespace);
* `data_averager.py`   — time-windowed averaging / wind shift (`Avg` namespace);
* `navigation_data.py` — navigation and route state (`Nav` namespace).

Modelling conventions:

* Raw records and payloads are lists of byte values (`List Nat`, each < 256).
  All byte reads in the source are guarded by length checks, so the default
  value `0` of `List.getD` is never observed on the guarded paths.
* Python floats are modelled as exact rationals (`ℚ`); `math.pi` is embedded
  as the exact rational value of the IEEE-754 double `math.pi`.
  No claim under verification depends on floating-point rounding.
* `datetime` values are rational numbers measured in seconds;
  `timedelta(minutes=m)` becomes `m * 60`; `datetime.now()` becomes an
  explicit `now` argument threaded through the operations that call it.
* Python `None` results become `Option.none`; dictionaries keyed by ints
  become insertion-ordered association lists, mirroring Python dict order.
-/

namespace Nmea

/-- Mirrors one byte read `data[i]`; every use in the source is guarded by a
length check so the `0` default is never observed there. -/
def byteAt (data : List Nat) (i : Nat) : Nat := data.getD i 0

/-- Mirrors `struct.unpack('<H', data[off:off+2])[0]` (little-endian u16). -/
def u16 (data : List Nat) (off : Nat) : Nat :=
  byteAt data off + 256 * byteAt data (off + 1)

/-- Mirrors `struct.unpack('<I', data[off:off+4])[0]` (little-endian u32). -/
def u32 (data : List Nat) (off : Nat) : Nat :=
  byteAt data off + 256 * byteAt data (off + 1)
    + 65536 * byteAt data (off + 2) + 16777216 * byteAt data (off + 3)

/-- Mirrors `struct.unpack('<i', data[off:off+4])[0]` (little-endian i32). -/
def i32 (data : List Nat) (off : Nat) : Int :=
  let n := u32 data off
  if n < 2147483648 then (n : Int) else (n : Int) - 4294967296

/-- Mirrors `struct.unpack('>I', raw_data[:4])[0]` (big-endian u32 header). -/
def be32 (data : List Nat) : Nat :=
  16777216 * byteAt data 0 + 65536 * byteAt data 1
    + 256 * byteAt data 2 + byteAt data 3

/-- Lower-case hex digit, as produced by Python `bytes.hex()`. -/
def hexDigit (n : Nat) : Char :=
  if n < 10 then Char.ofNat (48 + n) else Char.ofNat (87 + n)

/-- Two-digit lower-case hex rendering of one byte value. -/
def byteHex (b : Nat) : String :=
  String.mk [hexDigit (b / 16), hexDigit (b % 16)]

/-- Mirrors Python `bytes.hex()`. -/
def bytesHex (data : List Nat) : String :=
  String.join (data.map byteHex)

/-- Mirrors `bytes.decode('ascii', errors='ignore')`: bytes at or above 128
are dropped, the rest become their ASCII characters.  This decode never
raises, so the `except` fallback around it in the source is dead code. -/
def decodeAsciiIgnore (bs : List Nat) : String :=
  String.mk ((bs.filter (fun b => decide (b < 128))).map Char.ofNat)

/-- Exact rational value of the IEEE-754 double `math.pi`
(884279719003555 / 2 ^ 48). -/
def mathPi : ℚ := 884279719003555 / 281474976710656

/-- One waypoint record produced by `parse_route_waypoint_database`
(the Python dict with keys waypoint_id, latitude, longitude, name). -/
structure ParsedWaypoint where
  waypoint_id : Nat
  latitude : ℚ
  longitude : ℚ
  name : String
deriving DecidableEq, Repr

/-- The typed results of `parse_message`: one constructor per dict shape the
Python parser returns (the payload-specific dicts, plus the pass-through dict
for unknown selectors, which carries the hex of the WHOLE raw record). -/
inductive ParseResult where
  | position (latitude longitude : ℚ)
  | navigation (cog sog : ℚ)
  | wind (speed angle : ℚ) (reference : String)
  | waypointNav (bearing_to_waypoint distance_to_waypoint : ℚ)
  | waypointInfo (waypoint_id : Nat) (name : String)
  | crossTrackError (xte : ℚ) (xte_mode : Nat) (nav_terminated : Bool)
  | navigationRouteInfo (route_id waypoint_id : Nat)
      (distance_to_waypoint bearing_to_waypoint destination_latitude : ℚ)
      (destination_longitude : Option ℚ)
  | waypointList (raw_data : String) (length : Nat)
  | routeWaypointDatabase (database_id route_id nav_direction : Nat)
      (supplementary_route : Bool) (waypoints : List ParsedWaypoint)
  | unrecognized (pgn : Nat) (raw : String)
deriving DecidableEq, Repr

/-- Mirrors `parse_position_rapid_update` (PGN 129025). -/
def parse_position_rapid_update (data : List Nat) : Option ParseResult :=
  if data.length < 8 then none
  else some (.position ((i32 data 0 : ℚ) * 1e-7) ((i32 data 4 : ℚ) * 1e-7))

/-- Mirrors `parse_cog_sog_rapid_update` (PGN 129026). -/
def parse_cog_sog_rapid_update (data : List Nat) : Option ParseResult :=
  if data.length < 8 then none
  else some (.navigation ((u16 data 2 : ℚ) * 0.0001 * 180 / mathPi)
                         ((u16 data 4 : ℚ) * 0.01))

/-- Mirrors `parse_wind_data` (PGN 130306). -/
def parse_wind_data (data : List Nat) : Option ParseResult :=
  if data.length < 6 then none
  else
    let reference := byteAt data 4 &&& 0x07
    some (.wind ((u16 data 0 : ℚ) * 0.01)
                ((u16 data 2 : ℚ) * 0.0001 * 180 / mathPi)
                (if reference = 2 then "apparent" else "true"))

/-- Mirrors `parse_navigation_data` (PGN 129284). -/
def parse_navigation_data (data : List Nat) : Option ParseResult :=
  if data.length < 8 then none
  else some (.waypointNav ((u16 data 4 : ℚ) * 0.0001 * 180 / mathPi)
                          ((u32 data 0 : ℚ) * 0.01))

/-- Mirrors `parse_route_waypoint_info` (PGN 129285).  The name is decoded
from offset 8 only when a null terminator is found at a strictly positive
position; otherwise (no bytes after 8, no null, or null at position 0) the
synthesized name WP followed by the id is used. -/
def parse_route_waypoint_info (data : List Nat) : Option ParseResult :=
  if data.length < 8 then none
  else
    let waypoint_id := u16 data 0
    let name :=
      if 8 < data.length then
        let nameData := data.drop 8
        match nameData.findIdx? (fun b => b == 0) with
        | some nullPos =>
            if 0 < nullPos then decodeAsciiIgnore (nameData.take nullPos)
            else "WP" ++ toString waypoint_id
        | none => "WP" ++ toString waypoint_id
      else "WP" ++ toString waypoint_id
    some (.waypointInfo waypoint_id name)

/-- Mirrors `parse_cross_track_error` (PGN 129283). -/
def parse_cross_track_error (data : List Nat) : Option ParseResult :=
  if data.length < 6 then none
  else some (.crossTrackError ((i32 data 1 : ℚ) * 0.01)
                              (byteAt data 0 &&& 0x0F)
                              (decide (byteAt data 0 &&& 0x40 ≠ 0)))

/-- Mirrors `parse_navigation_route_info` (PGN 129281); the destination
longitude is present only when the payload has at least 18 bytes. -/
def parse_navigation_route_info (data : List Nat) : Option ParseResult :=
  if data.length < 16 then none
  else some (.navigationRouteInfo (u16 data 0) (u16 data 2)
        ((u32 data 4 : ℚ) * 0.01)
        ((u16 data 8 : ℚ) * 0.0001 * 180 / mathPi)
        ((i32 data 10 : ℚ) * 1e-7)
        (if 18 ≤ data.length then some ((i32 data 14 : ℚ) * 1e-7) else none))

/-- Mirrors `parse_waypoint_list` (PGN 129540). -/
def parse_waypoint_list (data : List Nat) : Option ParseResult :=
  if data.length < 8 then none
  else some (.waypointList (bytesHex data) data.length)

/-- The waypoint record decoded at a given offset by the body of the
`while` loop in `parse_route_waypoint_database`. -/
def wpAt (data : List Nat) (offset : Nat) : ParsedWaypoint :=
  { waypoint_id := u16 data offset
    latitude := (i32 data (offset + 2) : ℚ) * 1e-7
    longitude := (i32 data (offset + 6) : ℚ) * 1e-7
    name := "WP" ++ toString (u16 data offset) }

/-- Mirrors the `while offset + 16 <= len(data)` loop of
`parse_route_waypoint_database`; all slice reads inside the loop are in
bounds, so its `except: break` is dead code. -/
def parseWaypointRecords (data : List Nat) (offset : Nat) : List ParsedWaypoint :=
  if h : offset + 16 ≤ data.length then
    wpAt data offset :: parseWaypointRecords data (offset + 16)
  else []
termination_by data.length - offset
decreasing_by omega

/-- Mirrors `parse_route_waypoint_database` (PGN 130074). -/
def parse_route_waypoint_database (data : List Nat) : Option ParseResult :=
  if data.length < 8 then none
  else some (.routeWaypointDatabase (u16 data 0) (u16 data 2)
        (byteAt data 4 &&& 0x07)
        (decide (byteAt data 4 &&& 0x08 ≠ 0))
        (parseWaypointRecords data 8))

/-- Mirrors the selector extraction in `parse_message`:
`can_id = unpack('>I', raw[:4])`, `pgn = (can_id >> 8) & 0x1FFFF`. -/
def pgnOf (raw : List Nat) : Nat := (be32 raw >>> 8) &&& 0x1FFFF

/-- Mirrors `parse_message`: a record shorter than 8 bytes yields `none`
(Python `None`), a known selector dispatches to its decoder on the payload
`raw[8:]`, and an unknown selector yields the pass-through dict carrying the
selector and `raw_data.hex()` — the hex of the whole raw record.  None of the
modelled branches raises, so the blanket `except` clause is dead code here. -/
def parse_message (raw : List Nat) : Option ParseResult :=
  if raw.length < 8 then none
  else
    let pgn := pgnOf raw
    let data := raw.drop 8
    if pgn = 129025 then parse_position_rapid_update data
    else if pgn = 129026 then parse_cog_sog_rapid_update data
    else if pgn = 130306 then parse_wind_data data
    else if pgn = 129284 then parse_navigation_data data
    else if pgn = 129285 then parse_route_waypoint_info data
    else if pgn = 129283 then parse_cross_track_error data
    else if pgn = 129281 then parse_navigation_route_info data
    else if pgn = 129540 then parse_waypoint_list data
    else if pgn = 130074 then parse_route_waypoint_database data
    else some (.unrecognized pgn (bytesHex raw))

/-- The 9 selectors registered in `self.pgn_parsers`. -/
def knownSelectors : List Nat :=
  [129025, 129026, 130306, 129284, 129285, 129283, 129281, 129540, 130074]

/-- Minimum payload length each known selector's decoder requires before it
returns a value (the guard at the top of each decoder); `none` for unknown
selectors. -/
def minPayloadLen (pgn : Nat) : Option Nat :=
  if pgn = 129025 then some 8
  else if pgn = 129026 then some 8
  else if pgn = 130306 then some 6
  else if pgn = 129284 then some 8
  else if pgn = 129285 then some 8
  else if pgn = 129283 then some 6
  else if pgn = 129281 then some 16
  else if pgn = 129540 then some 8
  else if pgn = 130074 then some 8
  else none

end Nmea

namespace Avg

/-- The eight data channels of `DataAverager.__init__` (every key of
`self.data` except the shared `timestamps` deque). -/
inductive Channel where
  | vmg | cog | sog
  | trueWindSpeed | trueWindAngle
  | apparentWindSpeed | apparentWindAngle
  | absoluteWindDirection
deriving DecidableEq, Repr

/-- The Python dict key naming each channel. -/
def Channel.key : Channel → String
  | .vmg => "vmg"
  | .cog => "cog"
  | .sog => "sog"
  | .trueWindSpeed => "true_wind_speed"
  | .trueWindAngle => "true_wind_angle"
  | .apparentWindSpeed => "apparent_wind_speed"
  | .apparentWindAngle => "apparent_wind_angle"
  | .absoluteWindDirection => "absolute_wind_direction"

/-- Which channel (if any) a string names; mirrors membership of the name in
`self.data` apart from the `timestamps` key, which is handled separately
where the source consults it. -/
def channelOfKey (s : String) : Option Channel :=
  if s = "vmg" then some .vmg
  else if s = "cog" then some .cog
  else if s = "sog" then some .sog
  else if s = "true_wind_speed" then some .trueWindSpeed
  else if s = "true_wind_angle" then some .trueWindAngle
  else if s = "apparent_wind_speed" then some .apparentWindSpeed
  else if s = "apparent_wind_angle" then some .apparentWindAngle
  else if s = "absolute_wind_direction" then some .absoluteWindDirection
  else none

/-- State of a `DataAverager`: the window length (seconds), the per-channel
value deques, and the shared timestamp deque. -/
structure DataAverager where
  window : ℚ
  chan : Channel → List ℚ
  timestamps : List ℚ

/-- Mirrors `DataAverager.__init__(window_minutes)`:
`self.window = timedelta(minutes=window_minutes)` and empty deques. -/
def DataAverager.init (window_minutes : ℚ) : DataAverager :=
  { window := window_minutes * 60, chan := fun _ => [], timestamps := [] }

/-- Mirrors the `while` loop of `_cleanup_old_data`: while the oldest shared
timestamp is older than the cutoff, pop it and pop the head of every
non-empty channel (popping `[]` is the identity, like the guarded
`popleft`). -/
def cleanupLoop (cutoff : ℚ) :
    List ℚ → (Channel → List ℚ) → List ℚ × (Channel → List ℚ)
  | [], chans => ([], chans)
  | t0 :: rest, chans =>
      if t0 < cutoff then cleanupLoop cutoff rest (fun c => (chans c).tail)
      else (t0 :: rest, chans)

/-- Mirrors `_cleanup_old_data`: `cutoff = now - self.window`, then the
trimming loop over the shared timestamps and all channels. -/
def cleanupOld (now : ℚ) (s : DataAverager) : DataAverager :=
  let r := cleanupLoop (now - s.window) s.timestamps s.chan
  { s with timestamps := r.1, chan := r.2 }

/-- Mirrors `add_data(data_type, value, timestamp=None)`: when `data_type` is
a key of `self.data` the value is appended to that deque, the timestamp
(defaulted to `now`) is appended to the shared `timestamps` deque, and the
trim runs; otherwise the call is a no-op.  Note the key `timestamps` itself
passes the membership test: the value and the timestamp are then both
appended to the shared timestamp deque. -/
def add_data (s : DataAverager) (data_type : String) (value : ℚ)
    (timestamp : Option ℚ) (now : ℚ) : DataAverager :=
  let ts := timestamp.getD now
  match channelOfKey data_type with
  | some c =>
      cleanupOld now
        { s with chan := Function.update s.chan c (s.chan c ++ [value]),
                 timestamps := s.timestamps ++ [ts] }
  | none =>
      if data_type = "timestamps" then
        cleanupOld now { s with timestamps := s.timestamps ++ [value, ts] }
      else s

/-- Mirrors `get_average(data_type)`: the mean of a known non-empty deque,
otherwise 0.  (For the key `timestamps` the Python code would sum datetime
objects and raise; with times as rationals the sum is well-typed here.
No claim evaluates that key.) -/
def get_average (s : DataAverager) (data_type : String) : ℚ :=
  match channelOfKey data_type with
  | some c =>
      let l := s.chan c
      if l.isEmpty then 0 else l.sum / l.length
  | none =>
      if data_type = "timestamps" then
        if s.timestamps.isEmpty then 0
        else s.timestamps.sum / s.timestamps.length
      else 0

/-- The in-window timestamp/value pairs selected by the loop in
`get_wind_shift`: the absolute-wind-direction value at index i is paired
with the shared timestamp at index i and kept when that timestamp is at or
after the cutoff. -/
def windowPairs (s : DataAverager) (minutes now : ℚ) : List (ℚ × ℚ) :=
  (s.timestamps.zip (s.chan Channel.absoluteWindDirection)).filter
    (fun p => decide (now - minutes * 60 ≤ p.1))

/-- Mirrors `get_wind_shift(minutes)`: 0 for an empty channel or fewer than
two in-window values, else last minus first of the selection, wrapped by
minus 360 when above 180 and plus 360 when below minus 180. -/
def get_wind_shift (s : DataAverager) (minutes now : ℚ) : ℚ :=
  if (s.chan Channel.absoluteWindDirection).isEmpty then 0
  else
    let wind_values := (windowPairs s minutes now).map Prod.snd
    if wind_values.length < 2 then 0
    else
      let current_wind := wind_values.getLastD 0
      let old_wind := wind_values.headD 0
      let diff := current_wind - old_wind
      if 180 < diff then diff - 360
      else if diff < -180 then diff + 360
      else diff

/-- The wrap-around normalization step of `get_wind_shift`, as a function of
the raw difference. -/
def wrapDiff (d : ℚ) : ℚ :=
  if 180 < d then d - 360 else if d < -180 then d + 360 else d

/-- Modelled from the spec (claim-side description, for comparison with the
code): the arithmetic mean of exactly those samples (timestamp, value) whose
timestamp is at or after t - W, and 0 when no sample qualifies. -/
def specAverage (samples : List (ℚ × ℚ)) (t W : ℚ) : ℚ :=
  let retained := samples.filter (fun p => decide (t - W ≤ p.1))
  if retained.isEmpty then 0
  else (retained.map Prod.snd).sum / retained.length

/-- Runs a sequence of appends (value, timestamp, now) against one channel
name, in order. -/
def runAppends (data_type : String) (events : List (ℚ × ℚ × ℚ))
    (s : DataAverager) : DataAverager :=
  events.foldl (fun acc e => add_data acc data_type e.1 (some e.2.1) e.2.2) s

/-- A channel map holding the given values on one channel and nothing
elsewhere. -/
def mkChan (c : Channel) (ps : List (ℚ × ℚ)) : Channel → List ℚ :=
  fun c2 => if c2 = c then ps.map Prod.snd else []

/-- An averager state whose only populated channel is `c`, holding the given
timestamp/value pairs in lockstep with the shared timestamps. -/
def mkSingle (c : Channel) (W : ℚ) (ps : List (ℚ × ℚ)) : DataAverager :=
  { window := W, chan := mkChan c ps, timestamps := ps.map Prod.fst }

end Avg

namespace Nav

/-- The value stored for one waypoint id in `route_waypoints`
(the Python dict with keys latitude, longitude, name). -/
structure RouteWaypoint where
  latitude : ℚ
  longitude : ℚ
  name : String
deriving DecidableEq, Repr

/-- State of `NavigationData`, one field per attribute of `__init__`.
The `route_waypoints` dict is an insertion-ordered association list. -/
structure NavigationData where
  current_cog : ℚ
  current_sog : ℚ
  current_vmg : ℚ
  true_wind_speed : ℚ
  true_wind_angle : ℚ
  apparent_wind_speed : ℚ
  apparent_wind_angle : ℚ
  absolute_wind_direction : ℚ
  latitude : ℚ
  longitude : ℚ
  current_waypoint : String
  current_waypoint_id : Nat
  bearing_to_waypoint : ℚ
  distance_to_waypoint : ℚ
  next_waypoint : String
  next_waypoint_id : Nat
  course_to_next : ℚ
  destination_latitude : ℚ
  destination_longitude : ℚ
  cross_track_error : ℚ
  current_route_id : Nat
  route_waypoints : List (Nat × RouteWaypoint)
  waypoint_sequence : List Nat
  wind_shift_1min : ℚ
  wind_shift_5min : ℚ
  wind_shift_10min : ℚ

/-- Mirrors `NavigationData.__init__`. -/
def NavigationData.init : NavigationData :=
  { current_cog := 0, current_sog := 0, current_vmg := 0
    true_wind_speed := 0, true_wind_angle := 0
    apparent_wind_speed := 0, apparent_wind_angle := 0
    absolute_wind_direction := 0
    latitude := 0, longitude := 0
    current_waypoint := "N/A", current_waypoint_id := 0
    bearing_to_waypoint := 0, distance_to_waypoint := 0
    next_waypoint := "N/A", next_waypoint_id := 0, course_to_next := 0
    destination_latitude := 0, destination_longitude := 0
    cross_track_error := 0
    current_route_id := 0, route_waypoints := [], waypoint_sequence := []
    wind_shift_1min := 0, wind_shift_5min := 0, wind_shift_10min := 0 }

/-- Python float modulo by 360 (result in [0, 360) for a positive divisor). -/
def fmod360 (x : ℚ) : ℚ := x - 360 * (⌊x / 360⌋ : ℚ)

/-- Mirrors `update_navigation(cog, sog, vmg)`: overwrite exactly the
supplied fields.  It does NOT touch `absolute_wind_direction`. -/
def update_navigation (s : NavigationData) (cog sog vmg : Option ℚ) :
    NavigationData :=
  let s1 := match cog with | some v => { s with current_cog := v } | none => s
  let s2 := match sog with | some v => { s1 with current_sog := v } | none => s1
  match vmg with | some v => { s2 with current_vmg := v } | none => s2

/-- Mirrors `update_wind(true_speed, true_angle, apparent_speed,
apparent_angle)`: overwrite the supplied fields, then recompute
`absolute_wind_direction = (true_wind_angle + current_cog) % 360`.
The guard that both operands are not `None` is always true in the source
(the attributes are initialised to 0 and never set to `None`). -/
def update_wind (s : NavigationData)
    (true_speed true_angle apparent_speed apparent_angle : Option ℚ) :
    NavigationData :=
  let s1 := match true_speed with
    | some v => { s with true_wind_speed := v } | none => s
  let s2 := match true_angle with
    | some v => { s1 with true_wind_angle := v } | none => s1
  let s3 := match apparent_speed with
    | some v => { s2 with apparent_wind_speed := v } | none => s2
  let s4 := match apparent_angle with
    | some v => { s3 with apparent_wind_angle := v } | none => s3
  { s4 with absolute_wind_direction :=
      fmod360 (s4.true_wind_angle + s4.current_cog) }

/-- Python dict assignment `d[k] = v` on an insertion-ordered association
list: overwrite in place when the key is present, else append. -/
def dictSet {α : Type} : List (Nat × α) → Nat → α → List (Nat × α)
  | [], k, v => [(k, v)]
  | (k2, v2) :: rest, k, v =>
      if k2 = k then (k, v) :: rest else (k2, v2) :: dictSet rest k v

/-- Mirrors `add_route_waypoint(waypoint_id, latitude, longitude, name)`:
store/overwrite the waypoint under its id (name defaulted to WP id), and
append the id to `waypoint_sequence` only when not already present. -/
def add_route_waypoint (s : NavigationData) (waypoint_id : Nat)
    (latitude longitude : ℚ) (name : Option String) : NavigationData :=
  let nm := name.getD ("WP" ++ toString waypoint_id)
  let wp : RouteWaypoint := { latitude := latitude, longitude := longitude, name := nm }
  let s2 := { s with route_waypoints := dictSet s.route_waypoints waypoint_id wp }
  if waypoint_id ∈ s2.waypoint_sequence then s2
  else { s2 with waypoint_sequence := s2.waypoint_sequence ++ [waypoint_id] }

/-- Mirrors `get_next_waypoint_in_route`: find the current id in the
sequence (`list.index`; a missing id raises `ValueError`, caught and turned
into `None`, modelled by the `none` branch), then return the stored waypoint
of the following entry, or `None` when the current id is last or the
following id is not in the dict. -/
def get_next_waypoint_in_route (s : NavigationData) : Option RouteWaypoint :=
  match s.waypoint_sequence.findIdx? (fun x => x == s.current_waypoint_id) with
  | some i =>
      if i + 1 < s.waypoint_sequence.length then
        List.lookup (s.waypoint_sequence.getD (i + 1) 0) s.route_waypoints
      else none
  | none => none

end Nav

/-! ## General list lemmas shared by the proofs below -/

lemma headD_mem {α : Type} (l : List α) (d : α) (h : l ≠ []) : l.headD d ∈ l := by
  cases l with
  | nil => exact absurd rfl h
  | cons a t => simp

lemma getLastD_mem {α : Type} : ∀ (l : List α) (d : α), l ≠ [] → l.getLastD d ∈ l := by
  intro l
  induction l with
  | nil => intro d h; exact absurd rfl h
  | cons a t ih =>
      intro d _
      rw [List.getLastD_cons]
      cases ht : t with
      | nil => simp [ht]
      | cons b u =>
          rw [← ht]
          exact List.mem_cons_of_mem _ (ih a (by simp [ht]))

lemma headD_map_snd : ∀ (l : List (ℚ × ℚ)) (d : ℚ × ℚ),
    (l.map Prod.snd).headD d.2 = (l.headD d).2 := by
  intro l d
  cases l <;> rfl

lemma getLastD_map_snd : ∀ (l : List (ℚ × ℚ)) (d : ℚ × ℚ),
    (l.map Prod.snd).getLastD d.2 = (l.getLastD d).2 := by
  intro l
  induction l with
  | nil => intro d; rfl
  | cons a t ih =>
      intro d
      rw [List.map_cons, List.getLastD_cons, List.getLastD_cons]
      exact ih a

lemma headD_map_snd0 (l : List (ℚ × ℚ)) :
    (l.map Prod.snd).headD 0 = (l.headD (0, 0)).2 :=
  headD_map_snd l (0, 0)

lemma getLastD_map_snd0 (l : List (ℚ × ℚ)) :
    (l.map Prod.snd).getLastD 0 = (l.getLastD (0, 0)).2 :=
  getLastD_map_snd l (0, 0)

lemma sorted_headD_le (l : List (ℚ × ℚ)) (d : ℚ × ℚ)
    (hs : l.Pairwise (fun p q => p.1 ≤ q.1)) :
    ∀ p ∈ l, (l.headD d).1 ≤ p.1 := by
  cases l with
  | nil => intro p hp; cases hp
  | cons a t =>
      intro p hp
      rw [List.headD_cons]
      rcases List.mem_cons.mp hp with h | h
      · exact h ▸ le_refl _
      · exact (List.pairwise_cons.mp hs).1 p h

lemma sorted_le_getLastD : ∀ (l : List (ℚ × ℚ)) (d : ℚ × ℚ),
    l.Pairwise (fun p q => p.1 ≤ q.1) → ∀ p ∈ l, p.1 ≤ (l.getLastD d).1 := by
  intro l
  induction l with
  | nil => intro d _ p hp; cases hp
  | cons a t ih =>
      intro d hs p hp
      obtain ⟨h1, h2⟩ := List.pairwise_cons.mp hs
      rw [List.getLastD_cons]
      cases ht : t with
      | nil =>
          subst ht
          rw [List.mem_singleton.mp hp]
          simp
      | cons b u =>
          rw [← ht]
          rcases List.mem_cons.mp hp with h | h
          · subst h
            exact h1 _ (getLastD_mem _ _ (by simp [ht]))
          · exact ih a h2 p h

lemma pairwise_fst_zip {R : ℚ → ℚ → Prop} :
    ∀ (l1 l2 : List ℚ), l1.Pairwise R →
      (l1.zip l2).Pairwise (fun p q => R p.1 q.1) := by
  intro l1
  induction l1 with
  | nil => intro l2 _; simp
  | cons a t ih =>
      intro l2 h
      cases l2 with
      | nil => simp
      | cons b u =>
          obtain ⟨h1, h2⟩ := List.pairwise_cons.mp h
          rw [List.zip_cons_cons]
          refine List.pairwise_cons.mpr ⟨?_, ih u h2⟩
          intro p hp
          exact h1 p.1 (List.of_mem_zip hp).1

lemma dropWhile_lt_eq_filter (cut : ℚ) :
    ∀ ps : List (ℚ × ℚ), ps.Pairwise (fun p q => p.1 ≤ q.1) →
      ps.dropWhile (fun p => decide (p.1 < cut))
        = ps.filter (fun p => decide (cut ≤ p.1)) := by
  intro ps
  induction ps with
  | nil => intro _; rfl
  | cons a t ih =>
      intro hs
      obtain ⟨h1, h2⟩ := List.pairwise_cons.mp hs
      by_cases h : a.1 < cut
      · rw [List.dropWhile_cons_of_pos (by simpa using h),
            List.filter_cons_of_neg (by simpa using not_le.mpr h)]
        exact ih h2
      · push_neg at h
        rw [List.dropWhile_cons_of_neg (by simpa using h),
            List.filter_cons_of_pos (by simpa using h)]
        rw [List.filter_eq_self.mpr fun p hp => by simpa using le_trans h (h1 p hp)]

lemma filter_cut_filter_cut (c1 c2 : ℚ) (h : c1 ≤ c2) (ps : List (ℚ × ℚ)) :
    (ps.filter (fun p => decide (c1 ≤ p.1))).filter (fun p => decide (c2 ≤ p.1))
      = ps.filter (fun p => decide (c2 ≤ p.1)) := by
  induction ps with
  | nil => rfl
  | cons a t ih =>
      by_cases h1 : c1 ≤ a.1
      · by_cases h2 : c2 ≤ a.1 <;> simp [List.filter_cons, h1, h2, ih]
      · have h2 : ¬ c2 ≤ a.1 := fun hc => h1 (le_trans h hc)
        simp [List.filter_cons, h1, h2, ih]

/-! ## Parser lemmas -/

namespace Nmea

lemma parse_position_rapid_update_short {data : List Nat} (h : data.length < 8) :
    parse_position_rapid_update data = none := by
  simp [parse_position_rapid_update, h]

lemma parse_cog_sog_rapid_update_short {data : List Nat} (h : data.length < 8) :
    parse_cog_sog_rapid_update data = none := by
  simp [parse_cog_sog_rapid_update, h]

lemma parse_wind_data_short {data : List Nat} (h : data.length < 6) :
    parse_wind_data data = none := by
  simp [parse_wind_data, h]

lemma parse_navigation_data_short {data : List Nat} (h : data.length < 8) :
    parse_navigation_data data = none := by
  simp [parse_navigation_data, h]

lemma parse_route_waypoint_info_short {data : List Nat} (h : data.length < 8) :
    parse_route_waypoint_info data = none := by
  simp [parse_route_waypoint_info, h]

lemma parse_cross_track_error_short {data : List Nat} (h : data.length < 6) :
    parse_cross_track_error data = none := by
  simp [parse_cross_track_error, h]

lemma parse_navigation_route_info_short {data : List Nat} (h : data.length < 16) :
    parse_navigation_route_info data = none := by
  simp [parse_navigation_route_info, h]

lemma parse_waypoint_list_short {data : List Nat} (h : data.length < 8) :
    parse_waypoint_list data = none := by
  simp [parse_waypoint_list, h]

lemma parse_route_waypoint_database_short {data : List Nat} (h : data.length < 8) :
    parse_route_waypoint_database data = none := by
  simp [parse_route_waypoint_database, h]

lemma parseWaypointRecords_closed (data : List Nat) :
    ∀ (n offset : Nat), data.length - offset ≤ n →
      parseWaypointRecords data offset
        = (List.range ((data.length - offset) / 16)).map
            (fun k => wpAt data (offset + 16 * k)) := by
  intro n
  induction n with
  | zero =>
      intro offset h
      rw [parseWaypointRecords, dif_neg (by omega)]
      have h0 : data.length - offset = 0 := by omega
      rw [h0]
      rfl
  | succ n ih =>
      intro offset h
      rw [parseWaypointRecords]
      by_cases h2 : offset + 16 ≤ data.length
      · rw [dif_pos h2, ih (offset + 16) (by omega)]
        have h16 : 16 ≤ data.length - offset := by omega
        have hsub : data.length - offset - 16 = data.length - (offset + 16) := by omega
        have hdiv : (data.length - offset) / 16 = (data.length - (offset + 16)) / 16 + 1 := by
          rw [Nat.div_eq_sub_div (by norm_num) h16, hsub]
        rw [hdiv, List.range_succ_eq_map, List.map_cons, List.map_map]
        congr 1
        refine List.map_congr_left ?_
        intro i _
        simp only [Function.comp_apply, Nat.succ_eq_add_one]
        congr 1
        omega
      · rw [dif_neg h2]
        have h0 : (data.length - offset) / 16 = 0 := Nat.div_eq_of_lt (by omega)
        rw [h0]
        rfl

end Nmea

/-! ## Averager lemmas -/

namespace Avg

lemma channelOfKey_key (c : Channel) : channelOfKey c.key = some c := by
  cases c <;> rfl

lemma wrapDiff_bounds {d : ℚ} (h1 : -360 < d) (h2 : d < 360) :
    -180 ≤ wrapDiff d ∧ wrapDiff d ≤ 180 := by
  unfold wrapDiff
  split_ifs <;> constructor <;> linarith

lemma cleanupLoop_mkChan (cutoff : ℚ) (c : Channel) :
    ∀ ps : List (ℚ × ℚ),
      cleanupLoop cutoff (ps.map Prod.fst) (mkChan c ps)
        = ((ps.dropWhile (fun p => decide (p.1 < cutoff))).map Prod.fst,
           mkChan c (ps.dropWhile (fun p => decide (p.1 < cutoff)))) := by
  intro ps
  induction ps with
  | nil => rfl
  | cons a t ih =>
      by_cases h : a.1 < cutoff
      · have htail : (fun c2 => (mkChan c (a :: t) c2).tail) = mkChan c t := by
          funext c2
          by_cases hc : c2 = c <;> simp [mkChan, hc]
        rw [List.map_cons, List.dropWhile_cons_of_pos (by simpa using h)]
        show cleanupLoop cutoff (a.1 :: t.map Prod.fst) (mkChan c (a :: t)) = _
        rw [cleanupLoop, if_pos h, htail]
        exact ih
      · rw [List.map_cons, List.dropWhile_cons_of_neg (by simpa using h)]
        show cleanupLoop cutoff (a.1 :: t.map Prod.fst) (mkChan c (a :: t)) = _
        rw [cleanupLoop, if_neg h]
        rfl

lemma cleanupOld_mkSingle (now W : ℚ) (c : Channel) (ps : List (ℚ × ℚ)) :
    cleanupOld now (mkSingle c W ps)
      = mkSingle c W (ps.dropWhile (fun p => decide (p.1 < now - W))) := by
  show cleanupOld now (mkSingle c W ps) = _
  unfold cleanupOld
  have h : (mkSingle c W ps).window = W := rfl
  have h2 : (mkSingle c W ps).timestamps = ps.map Prod.fst := rfl
  have h3 : (mkSingle c W ps).chan = mkChan c ps := rfl
  rw [h, h2, h3, cleanupLoop_mkChan]
  rfl

lemma add_data_mkSingle (c : Channel) (W : ℚ) (ps : List (ℚ × ℚ)) (v t now : ℚ) :
    add_data (mkSingle c W ps) c.key v (some t) now
      = mkSingle c W ((ps ++ [(t, v)]).dropWhile (fun p => decide (p.1 < now - W))) := by
  have hupd : Function.update (mkChan c ps) c (mkChan c ps c ++ [v])
      = mkChan c (ps ++ [(t, v)]) := by
    funext c2
    by_cases hc : c2 = c
    · subst hc; simp [mkChan]
    · simp [Function.update_noteq hc, mkChan, hc]
  have hmid : ({ mkSingle c W ps with
        chan := Function.update (mkSingle c W ps).chan c
                  ((mkSingle c W ps).chan c ++ [v]),
        timestamps := (mkSingle c W ps).timestamps ++ [t] } : DataAverager)
      = mkSingle c W (ps ++ [(t, v)]) := by
    show ({ window := W, chan := Function.update (mkChan c ps) c (mkChan c ps c ++ [v]),
            timestamps := ps.map Prod.fst ++ [t] } : DataAverager) = _
    rw [hupd]
    show _ = ({ window := W, chan := mkChan c (ps ++ [(t, v)]),
                timestamps := (ps ++ [(t, v)]).map Prod.fst } : DataAverager)
    simp
  show add_data (mkSingle c W ps) c.key v (some t) now = _
  unfold add_data
  rw [channelOfKey_key]
  show cleanupOld now ({ mkSingle c W ps with
        chan := Function.update (mkSingle c W ps).chan c
                  ((mkSingle c W ps).chan c ++ [v]),
        timestamps := (mkSingle c W ps).timestamps ++ [(some t).getD now] } : DataAverager) = _
  rw [show ((some t).getD now : ℚ) = t from rfl, hmid, cleanupOld_mkSingle]

lemma mkSingle_nil (c : Channel) (W : ℚ) :
    mkSingle c W [] = DataAverager.init (W / 60) := by
  have hchan : mkChan c [] = fun _ => ([] : List ℚ) := by
    funext c2
    simp [mkChan]
  unfold mkSingle DataAverager.init
  rw [hchan]
  have : W / 60 * 60 = W := by
    field_simp
  rw [this]
  rfl

lemma runAppends_mkSingle (c : Channel) (w : ℚ) :
    ∀ events : List (ℚ × ℚ × ℚ),
      (events.map (fun e => e.2.1)).Pairwise (· ≤ ·) →
      (events.map (fun e => e.2.2)).Pairwise (· ≤ ·) →
      runAppends c.key events (DataAverager.init w)
        = mkSingle c (w * 60)
            ((events.map (fun e => (e.2.1, e.1))).filter
              (fun p => decide ((events.map (fun e => e.2.2)).getLastD 0 - w * 60 ≤ p.1))) := by
  intro events
  induction events using List.reverseRecOn with
  | nil =>
      intro _ _
      have h : mkChan c [] = fun _ => ([] : List ℚ) := by
        funext c2
        simp [mkChan]
      show DataAverager.init w = mkSingle c (w * 60) []
      unfold mkSingle DataAverager.init
      rw [h]
      rfl
  | append_singleton es e ih =>
      intro hts hnow
      rw [List.map_append, List.pairwise_append] at hts hnow
      obtain ⟨hts1, _, hts3⟩ := hts
      obtain ⟨hnow1, _, hnow3⟩ := hnow
      have hstep : runAppends c.key (es ++ [e]) (DataAverager.init w)
          = add_data (runAppends c.key es (DataAverager.init w)) c.key e.1 (some e.2.1) e.2.2 := by
        simp [runAppends, List.foldl_append]
      rw [hstep, ih hts1 hnow1, add_data_mkSingle]
      have hsorted : ((es.map (fun e2 => (e2.2.1, e2.1))).filter
            (fun p => decide ((es.map (fun e2 => e2.2.2)).getLastD 0 - w * 60 ≤ p.1))
            ++ [(e.2.1, e.1)]).Pairwise (fun p q => p.1 ≤ q.1) := by
        rw [List.pairwise_append]
        refine ⟨?_, List.pairwise_singleton _ _, ?_⟩
        · refine List.Pairwise.filter _ ?_
          have hmap : (es.map (fun e2 => (e2.2.1, e2.1))).Pairwise
              (fun p q => p.1 ≤ q.1) := by
            have := hts1
            rw [List.pairwise_map] at this ⊢
            exact this
          exact hmap
        · intro p hp q hq
          rw [List.mem_singleton.mp hq]
          have hp2 := List.mem_of_mem_filter hp
          rw [List.mem_map] at hp2
          obtain ⟨e2, he2, rfl⟩ := hp2
          exact hts3 e2.2.1 (List.mem_map_of_mem _ he2) e.2.1 (List.mem_singleton_self _)
      rw [dropWhile_lt_eq_filter _ _ hsorted]
      have hlast : ((es ++ [e]).map (fun e2 => e2.2.2)).getLastD 0 = e.2.2 := by
        rw [List.map_append]
        exact List.getLastD_concat _ _ _
      rw [List.filter_append]
      have hcut : (es.map (fun e2 => e2.2.2)).getLastD 0 - w * 60 ≤ e.2.2 - w * 60 ∨ es = [] := by
        cases hes : es with
        | nil => exact Or.inr rfl
        | cons a t =>
            left
            have hmem : ((a :: t).map (fun e2 => e2.2.2)).getLastD 0
                ∈ (a :: t).map (fun e2 => e2.2.2) :=
              getLastD_mem _ _ (by simp)
            have h4 := hnow3 _ (show _ ∈ List.map (fun e2 => e2.2.2) es from by
              rw [hes]; exact hmem) e.2.2 (List.mem_singleton_self _)
            linarith
      have hcomp : ((es.map (fun e2 => (e2.2.1, e2.1))).filter
            (fun p => decide ((es.map (fun e2 => e2.2.2)).getLastD 0 - w * 60 ≤ p.1))).filter
              (fun p => decide (e.2.2 - w * 60 ≤ p.1))
          = (es.map (fun e2 => (e2.2.1, e2.1))).filter
              (fun p => decide (e.2.2 - w * 60 ≤ p.1)) := by
        rcases hcut with hcut | hcut
        · exact filter_cut_filter_cut _ _ hcut _
        · rw [hcut]
          rfl
      rw [hcomp, hlast, List.map_append, List.filter_append]
      rfl

end Avg

/-! ## Navigation lemmas -/

namespace Nav

lemma lookup_dictSet {α : Type} (d : List (Nat × α)) (k : Nat) (v : α) :
    List.lookup k (dictSet d k v) = some v := by
  induction d with
  | nil => simp [dictSet, List.lookup]
  | cons h t ih =>
      obtain ⟨k2, v2⟩ := h
      by_cases hk : k2 = k
      · subst hk
        simp [dictSet, List.lookup]
      · rw [show dictSet ((k2, v2) :: t) k v = (k2, v2) :: dictSet t k v from by
            simp [dictSet, hk]]
        have hbeq : (k == k2) = false := by
          simpa using Ne.symm hk
        simp [List.lookup, hbeq, ih]

lemma add_route_waypoint_seq (s : NavigationData) (id : Nat) (lat lon : ℚ)
    (nm : Option String) :
    (add_route_waypoint s id lat lon nm).waypoint_sequence
      = if id ∈ s.waypoint_sequence then s.waypoint_sequence
        else s.waypoint_sequence ++ [id] := by
  unfold add_route_waypoint
  by_cases h : id ∈ s.waypoint_sequence <;> simp [h]

lemma add_route_waypoint_dict (s : NavigationData) (id : Nat) (lat lon : ℚ)
    (nm : Option String) :
    (add_route_waypoint s id lat lon nm).route_waypoints
      = dictSet s.route_waypoints id
          { latitude := lat, longitude := lon,
            name := nm.getD ("WP" ++ toString id) } := by
  unfold add_route_waypoint
  by_cases h : id ∈ s.waypoint_sequence <;> simp [h]

end Nav

/-! ## Claim theorems -/

open Nmea Avg Nav

/-- Claim C1, counterexample: updating course alone via `update_navigation`
does NOT recompute `absolute_wind_direction`.  Starting from the initial
state, `update_wind` with true angle 100 sets the absolute direction to 100;
a subsequent `update_navigation` with cog 90 leaves it at 100, while
`(true_wind_angle + course) mod 360 = 190`. -/
theorem C1_counterexample :
    (update_navigation (update_wind NavigationData.init none (some 100) none none)
        (some 90) none none).current_cog = 90
    ∧ (update_navigation (update_wind NavigationData.init none (some 100) none none)
        (some 90) none none).true_wind_angle = 100
    ∧ (update_navigation (update_wind NavigationData.init none (some 100) none none)
        (some 90) none none).absolute_wind_direction = 100
    ∧ fmod360 (100 + 90) = 190
    ∧ (100 : ℚ) ≠ 190 := by
  refine ⟨rfl, rfl, ?_, ?_, by norm_num⟩
  · norm_num [update_navigation, update_wind, NavigationData.init, fmod360]
  · norm_num [fmod360]

/-- Claim C1, amended: `absolute_wind_direction` is recomputed only by
`update_wind` — after any `update_wind` call it equals
`(true_wind_angle + current_cog) mod 360` over the post-update fields —
while `update_navigation` (including a course change) never changes it. -/
theorem C1_amended :
    (∀ (s : NavigationData) (tsp tan asp aan : Option ℚ),
        (update_wind s tsp tan asp aan).absolute_wind_direction
          = fmod360 ((update_wind s tsp tan asp aan).true_wind_angle
              + (update_wind s tsp tan asp aan).current_cog))
    ∧ (∀ (s : NavigationData) (cog sog vmg : Option ℚ),
        (update_navigation s cog sog vmg).absolute_wind_direction
          = s.absolute_wind_direction) := by
  constructor
  · intro s tsp tan asp aan
    cases tsp <;> cases tan <;> cases asp <;> cases aan <;> rfl
  · intro s cog sog vmg
    cases cog <;> cases sog <;> cases vmg <;> rfl

/-- Claim C3, counterexample: a record shorter than 8 bytes and a record
with the known selector 129025 but an empty payload both decode to the SAME
value `none`; the failure results are not distinct, contradicting the
claimed `MalformedFrame` / `Incomplete` distinction. -/
theorem C3_counterexample :
    parse_message [0, 0, 0, 0, 0, 0, 0] = none
    ∧ pgnOf [1, 248, 1, 0, 0, 0, 0, 0] = 129025
    ∧ parse_message [1, 248, 1, 0, 0, 0, 0, 0] = none
    ∧ parse_message [1, 248, 1, 0, 0, 0, 0, 0] = parse_message [0, 0, 0, 0, 0, 0, 0] := by
  refine ⟨rfl, by decide, rfl, rfl⟩

/-- Claim C3, amended: every record shorter than 8 bytes decodes to the
failure value `none`, and every record whose known selector needs more
payload than is present also decodes to the SAME failure value `none`
(decoding returns a value in both cases — it never aborts — but the two
failures are indistinguishable). -/
theorem C3_amended :
    (∀ raw : List Nat, raw.length < 8 → parse_message raw = none)
    ∧ (∀ (raw : List Nat) (m : Nat), minPayloadLen (pgnOf raw) = some m →
        raw.length < 8 + m → parse_message raw = none) := by
  constructor
  · intro raw h
    simp [parse_message, h]
  · intro raw m hm hlen
    by_cases hr : raw.length < 8
    · simp [parse_message, hr]
    · unfold minPayloadLen at hm
      split_ifs at hm with h1 h2 h3 h4 h5 h6 h7 h8 h9
      · injection hm with hm
        subst hm
        have hd : (raw.drop 8).length < 8 := by simp; omega
        simp [parse_message, hr, h1, parse_position_rapid_update_short hd]
      · injection hm with hm
        subst hm
        have hd : (raw.drop 8).length < 8 := by simp; omega
        simp [parse_message, hr, h1, h2, parse_cog_sog_rapid_update_short hd]
      · injection hm with hm
        subst hm
        have hd : (raw.drop 8).length < 6 := by simp; omega
        simp [parse_message, hr, h1, h2, h3, parse_wind_data_short hd]
      · injection hm with hm
        subst hm
        have hd : (raw.drop 8).length < 8 := by simp; omega
        simp [parse_message, hr, h1, h2, h3, h4, parse_navigation_data_short hd]
      · injection hm with hm
        subst hm
        have hd : (raw.drop 8).length < 8 := by simp; omega
        simp [parse_message, hr, h1, h2, h3, h4, h5, parse_route_waypoint_info_short hd]
      · injection hm with hm
        subst hm
        have hd : (raw.drop 8).length < 6 := by simp; omega
        simp [parse_message, hr, h1, h2, h3, h4, h5, h6, parse_cross_track_error_short hd]
      · injection hm with hm
        subst hm
        have hd : (raw.drop 8).length < 16 := by simp; omega
        simp [parse_message, hr, h1, h2, h3, h4, h5, h6, h7,
          parse_navigation_route_info_short hd]
      · injection hm with hm
        subst hm
        have hd : (raw.drop 8).length < 8 := by simp; omega
        simp [parse_message, hr, h1, h2, h3, h4, h5, h6, h7, h8,
          parse_waypoint_list_short hd]
      · injection hm with hm
        subst hm
        have hd : (raw.drop 8).length < 8 := by simp; omega
        simp [parse_message, hr, h1, h2, h3, h4, h5, h6, h7, h8, h9,
          parse_route_waypoint_database_short hd]

/-- Witness for C3_amended, at a 7-byte record and at an 8-byte record
carrying selector 129025 with an empty payload. -/
theorem C3_witness :
    parse_message [0, 0, 0, 0, 0, 0, 0] = none
    ∧ parse_message [1, 248, 1, 0, 0, 0, 0, 0] = none := by
  exact ⟨C3_amended.1 [0, 0, 0, 0, 0, 0, 0] (by decide),
         C3_amended.2 [1, 248, 1, 0, 0, 0, 0, 0] 8 (by decide) (by decide)⟩

/-- Claim C5: for every RouteWaypointDatabase payload of length at least 8,
decoding yields exactly one waypoint per complete 16-byte record starting at
offset 8 — record k carrying the 16-bit id at its start, the two scaled
32-bit coordinates, and the synthesized name — and the waypoint count is
(length − 8) / 16, so a trailing partial record is silently discarded. -/
theorem C5_thm (data : List Nat) (h : 8 ≤ data.length) :
    parse_route_waypoint_database data
      = some (ParseResult.routeWaypointDatabase (u16 data 0) (u16 data 2)
          (byteAt data 4 &&& 0x07) (decide (byteAt data 4 &&& 0x08 ≠ 0))
          ((List.range ((data.length - 8) / 16)).map (fun k => wpAt data (8 + 16 * k))))
    ∧ (parseWaypointRecords data 8).length = (data.length - 8) / 16 := by
  have hc := parseWaypointRecords_closed data data.length 8 (by omega)
  constructor
  · rw [parse_route_waypoint_database, if_neg (by omega), hc]
  · rw [hc]
    simp

/-- Witness for C5_thm: a payload holding 2 complete 16-byte records plus 5
trailing bytes yields exactly the 2 decoded waypoints. -/
theorem C5_witness :
    parse_route_waypoint_database
        ([1, 0, 2, 0, 11, 0, 0, 0]
          ++ [1, 0, 0, 0, 0, 0, 0, 0, 0, 0, 0, 0, 0, 0, 0, 0]
          ++ [2, 0, 128, 150, 152, 0, 0, 0, 0, 0, 0, 0, 0, 0, 0, 0]
          ++ [9, 9, 9, 9, 9])
      = some (ParseResult.routeWaypointDatabase 1 2 3 true
          [{ waypoint_id := 1, latitude := 0, longitude := 0, name := "WP1" },
           { waypoint_id := 2, latitude := 1, longitude := 0, name := "WP2" }]) := by
  have h := (C5_thm
    ([1, 0, 2, 0, 11, 0, 0, 0]
      ++ [1, 0, 0, 0, 0, 0, 0, 0, 0, 0, 0, 0, 0, 0, 0, 0]
      ++ [2, 0, 128, 150, 152, 0, 0, 0, 0, 0, 0, 0, 0, 0, 0, 0]
      ++ [9, 9, 9, 9, 9]) (by decide)).1
  rw [h]
  norm_num [wpAt, u16, u32, i32, byteAt, List.range_succ]
  decide

/-- Claim C6, counterexample: a WaypointInfo payload of length 10 whose name
bytes after offset 8 are "AB" with NO terminator decodes to the synthesized
name "WP7", not to the claimed best-effort text "AB" running to
end-of-payload. -/
theorem C6_counterexample :
    parse_route_waypoint_info [7, 0, 0, 0, 0, 0, 0, 0, 65, 66]
      = some (ParseResult.waypointInfo 7 "WP7")
    ∧ decodeAsciiIgnore (List.drop 8 [7, 0, 0, 0, 0, 0, 0, 0, 65, 66]) = "AB"
    ∧ "WP7" ≠ "AB" := by
  refine ⟨by decide, by decide, by decide⟩

/-- Claim C6, amended: for a payload of length at least 8, the decoded name
is the best-effort ASCII text of the bytes from offset 8 up to the first
null byte ONLY when that null exists at a strictly positive position; when
the payload has no bytes after offset 8, no null terminator among them, or
the null is their first byte, the synthesized name WP followed by the id is
returned instead. -/
theorem C6_amended (data : List Nat) (h : 8 ≤ data.length) :
    (data.length = 8 →
      parse_route_waypoint_info data
        = some (.waypointInfo (u16 data 0) ("WP" ++ toString (u16 data 0))))
    ∧ (8 < data.length → (data.drop 8).findIdx? (fun b => b == 0) = none →
      parse_route_waypoint_info data
        = some (.waypointInfo (u16 data 0) ("WP" ++ toString (u16 data 0))))
    ∧ (8 < data.length → (data.drop 8).findIdx? (fun b => b == 0) = some 0 →
      parse_route_waypoint_info data
        = some (.waypointInfo (u16 data 0) ("WP" ++ toString (u16 data 0))))
    ∧ (∀ p, 8 < data.length → (data.drop 8).findIdx? (fun b => b == 0) = some p →
      0 < p →
      parse_route_waypoint_info data
        = some (.waypointInfo (u16 data 0)
            (decodeAsciiIgnore ((data.drop 8).take p)))) := by
  have h8 : ¬ data.length < 8 := by omega
  refine ⟨?_, ?_, ?_, ?_⟩
  · intro hlen
    simp [parse_route_waypoint_info, h8, hlen]
  · intro hlen hfind
    simp [parse_route_waypoint_info, h8, hlen, hfind]
  · intro hlen hfind
    simp [parse_route_waypoint_info, h8, hlen, hfind]
  · intro p hlen hfind hp
    simp [parse_route_waypoint_info, h8, hlen, hfind, hp]

/-- Witness for C6_amended: a payload with name bytes "AB" followed by a
null terminator decodes the name "AB"; one with no terminator synthesizes
"WP7". -/
theorem C6_witness :
    parse_route_waypoint_info [7, 0, 0, 0, 0, 0, 0, 0, 65, 66, 0]
      = some (ParseResult.waypointInfo 7 "AB")
    ∧ parse_route_waypoint_info [7, 0, 0, 0, 0, 0, 0, 0, 65, 66]
      = some (ParseResult.waypointInfo 7 "WP7") := by
  constructor
  · have h := (C6_amended [7, 0, 0, 0, 0, 0, 0, 0, 65, 66, 0] (by decide)).2.2.2
      2 (by decide) (by decide) (by decide)
    rw [h]
    decide
  · have h := (C6_amended [7, 0, 0, 0, 0, 0, 0, 0, 65, 66] (by decide)).2.1
      (by decide) (by decide)
    rw [h]
    decide

/-- Claim C7, counterexample: for a 9-byte record with unrecognized selector
0, the pass-through result carries the hex of the ENTIRE raw record
(header included), not the hex of the payload alone. -/
theorem C7_counterexample :
    parse_message [0, 0, 0, 0, 0, 0, 0, 0, 171]
      = some (ParseResult.unrecognized 0 "0000000000000000ab")
    ∧ bytesHex (List.drop 8 [0, 0, 0, 0, 0, 0, 0, 0, 171]) = "ab"
    ∧ "0000000000000000ab" ≠ "ab" := by
  refine ⟨by decide, by decide, by decide⟩

/-- Claim C7, amended: every record of length at least 8 whose selector is
not among the 9 known selectors decodes to the non-error pass-through result
carrying the selector and the hex rendering of the WHOLE raw record
(header bytes included), rather than of the payload alone. -/
theorem C7_amended (raw : List Nat) (h8 : 8 ≤ raw.length)
    (hk : pgnOf raw ∉ knownSelectors) :
    parse_message raw = some (ParseResult.unrecognized (pgnOf raw) (bytesHex raw)) := by
  have h1 : ¬ raw.length < 8 := by omega
  simp only [knownSelectors, List.mem_cons, List.mem_singleton, not_or] at hk
  obtain ⟨n1, n2, n3, n4, n5, n6, n7, n8, n9⟩ := hk
  simp [parse_message, h1, n1, n2, n3, n4, n5, n6, n7, n8, n9]

/-- Witness for C7_amended at a record with unrecognized selector 1. -/
theorem C7_witness :
    parse_message [0, 0, 1, 0, 0, 0, 0, 0]
      = some (ParseResult.unrecognized 1 "0000010000000000") := by
  have h := C7_amended [0, 0, 1, 0, 0, 0, 0, 0] (by decide) (by decide)
  rw [h]
  decide

/-- Claim C8: `get_next_waypoint_in_route` returns `none` when the current
id is absent from the waypoint sequence and when it sits at the last
position; when the current id is found at position i with i+1 in range, it
returns the stored waypoint of the entry immediately following — a `some`
value whenever the sequence is consistent with the waypoint map — and it
never raises (it is a total function). -/
theorem C8_thm (s : NavigationData) :
    (s.waypoint_sequence.findIdx? (fun x => x == s.current_waypoint_id) = none →
      get_next_waypoint_in_route s = none)
    ∧ (∀ i, s.waypoint_sequence.findIdx? (fun x => x == s.current_waypoint_id) = some i →
        s.waypoint_sequence.length = i + 1 →
        get_next_waypoint_in_route s = none)
    ∧ (∀ i, s.waypoint_sequence.findIdx? (fun x => x == s.current_waypoint_id) = some i →
        i + 1 < s.waypoint_sequence.length →
        get_next_waypoint_in_route s
          = List.lookup (s.waypoint_sequence.getD (i + 1) 0) s.route_waypoints
        ∧ ((∀ j ∈ s.waypoint_sequence, (List.lookup j s.route_waypoints).isSome) →
            (get_next_waypoint_in_route s).isSome)) := by
  refine ⟨?_, ?_, ?_⟩
  · intro h
    simp [get_next_waypoint_in_route, h]
  · intro i h hl
    simp only [get_next_waypoint_in_route, h]
    rw [if_neg (by omega)]
  · intro i h hl
    have heq : get_next_waypoint_in_route s
        = List.lookup (s.waypoint_sequence.getD (i + 1) 0) s.route_waypoints := by
      simp only [get_next_waypoint_in_route, h]
      rw [if_pos hl]
    refine ⟨heq, ?_⟩
    intro hinv
    have hmem : s.waypoint_sequence.getD (i + 1) 0 ∈ s.waypoint_sequence := by
      rw [List.getD_eq_getElem _ _ hl]
      exact List.getElem_mem hl
    rw [heq]
    exact hinv _ hmem

/-- Witness for C8_thm: in a route 1 then 2 with current id 1, the next
waypoint resolves to the record stored under id 2. -/
theorem C8_witness :
    get_next_waypoint_in_route { NavigationData.init with
        current_waypoint_id := 1, waypoint_sequence := [1, 2],
        route_waypoints := [(1, { latitude := 0, longitude := 0, name := "A" }),
                            (2, { latitude := 5, longitude := 6, name := "B" })] }
      = some { latitude := 5, longitude := 6, name := "B" } := by
  have h := ((C8_thm { NavigationData.init with
        current_waypoint_id := 1, waypoint_sequence := [1, 2],
        route_waypoints := [(1, { latitude := 0, longitude := 0, name := "A" }),
                            (2, { latitude := 5, longitude := 6, name := "B" })] }).2.2
    0 (by decide) (by decide)).1
  rw [h]
  decide

/-- Claim C9: calling `add_route_waypoint` a second time with the same id
leaves the ordered waypoint sequence exactly as after the first call — in
particular the id occurs exactly once, at its original position — while the
coordinates and name stored under the id are overwritten by the second
call's values.  (The uniqueness hypothesis on the starting sequence is the
spec's Route invariant, maintained by all route operations.) -/
theorem C9_thm (s : NavigationData) (id : Nat) (lat1 lon1 lat2 lon2 : ℚ)
    (n1 n2 : Option String) (hnd : s.waypoint_sequence.Nodup) :
    (add_route_waypoint (add_route_waypoint s id lat1 lon1 n1) id lat2 lon2 n2).waypoint_sequence
      = (add_route_waypoint s id lat1 lon1 n1).waypoint_sequence
    ∧ (add_route_waypoint (add_route_waypoint s id lat1 lon1 n1) id lat2 lon2 n2).waypoint_sequence.count id
      = 1
    ∧ List.lookup id
        (add_route_waypoint (add_route_waypoint s id lat1 lon1 n1) id lat2 lon2 n2).route_waypoints
      = some { latitude := lat2, longitude := lon2,
               name := n2.getD ("WP" ++ toString id) } := by
  have hmem1 : id ∈ (add_route_waypoint s id lat1 lon1 n1).waypoint_sequence := by
    rw [add_route_waypoint_seq]
    by_cases h : id ∈ s.waypoint_sequence <;> simp [h]
  have hseq : (add_route_waypoint (add_route_waypoint s id lat1 lon1 n1) id lat2 lon2 n2).waypoint_sequence
      = (add_route_waypoint s id lat1 lon1 n1).waypoint_sequence := by
    rw [add_route_waypoint_seq, if_pos hmem1]
  refine ⟨hseq, ?_, ?_⟩
  · rw [hseq, add_route_waypoint_seq]
    by_cases h : id ∈ s.waypoint_sequence
    · rw [if_pos h]
      exact List.count_eq_one_of_mem hnd h
    · rw [if_neg h, List.count_append]
      simp [List.count_eq_zero_of_not_mem h]
  · rw [add_route_waypoint_dict, lookup_dictSet]

/-- Witness for C9_thm: adding waypoint 7 twice to the initial state keeps
the sequence of the first call and stores the second call's coordinates. -/
theorem C9_witness :
    (add_route_waypoint (add_route_waypoint NavigationData.init 7 1 2 none) 7 3 4
        (some "B")).waypoint_sequence
      = (add_route_waypoint NavigationData.init 7 1 2 none).waypoint_sequence
    ∧ List.lookup 7
        (add_route_waypoint (add_route_waypoint NavigationData.init 7 1 2 none) 7 3 4
          (some "B")).route_waypoints
      = some { latitude := 3, longitude := 4, name := "B" } := by
  have h := C9_thm NavigationData.init 7 1 2 3 4 none (some "B") (by decide)
  exact ⟨h.1, h.2.2⟩

/-- Claim C10, counterexample: the name "timestamps" is NOT one of the
fixed channels, yet `add_data` with it is not a no-op — it appends both the
value and the timestamp to the shared timestamp deque. -/
theorem C10_counterexample :
    channelOfKey "timestamps" = none
    ∧ (add_data (DataAverager.init 5) "timestamps" 5 (some 100) 100).timestamps = [5, 100]
    ∧ (DataAverager.init 5).timestamps = []
    ∧ ([(5 : ℚ), 100] : List ℚ) ≠ [] := by
  refine ⟨rfl, ?_, rfl, by simp⟩
  have h1 : channelOfKey "timestamps" = none := rfl
  norm_num [add_data, DataAverager.init, cleanupOld, cleanupLoop, h1]

/-- Claim C10, amended: for every name that is a key of neither the channel
map nor the shared "timestamps" deque, `add_data` leaves the state entirely
unchanged (a silent no-op) and `get_average` returns 0; the name
"timestamps" itself is the one exception, since it is a dict key. -/
theorem C10_amended (s : DataAverager) (name : String) (v : ℚ) (t : Option ℚ)
    (now : ℚ) (h1 : channelOfKey name = none) (h2 : name ≠ "timestamps") :
    add_data s name v t now = s ∧ get_average s name = 0 := by
  constructor
  · simp [add_data, h1, h2]
  · simp [get_average, h1, h2]

/-- Witness for C10_amended at the unknown channel name "heading". -/
theorem C10_witness :
    add_data (DataAverager.init 5) "heading" 1 none 0 = DataAverager.init 5
    ∧ get_average (DataAverager.init 5) "heading" = 0 :=
  C10_amended (DataAverager.init 5) "heading" 1 none 0 rfl (by decide)

/-- Claim C2, counterexample: a single sample appended to cog at time 0 is
still averaged by a read at call time 1000 with the default 5-minute window,
although its timestamp 0 is far older than 1000 − 300; the claimed read-time
mean over samples with timestamp at or after t − W is 0 (no retained
sample), but the code returns 10.  (The code trims only inside `add_data`,
never at read time.) -/
theorem C2_counterexample :
    get_average (add_data (DataAverager.init 5) "cog" 10 (some 0) 0) "cog" = 10
    ∧ specAverage [(0, 10)] 1000 300 = 0
    ∧ (10 : ℚ) ≠ 0 := by
  refine ⟨?_, ?_, by norm_num⟩
  · have h1 : channelOfKey "cog" = some Channel.cog := rfl
    norm_num [get_average, add_data, DataAverager.init, cleanupOld, cleanupLoop, h1,
      Function.update, List.sum]
  · norm_num [specAverage, List.filter_cons]

/-- Claim C2, amended: when all appends target one channel c with
non-decreasing sample timestamps and non-decreasing append times, and the
average is read at the time of the last append, `get_average` equals the
spec-side mean of exactly the samples with timestamp at or after that time
minus the window (0 when none is retained).  Reads at later times, or
mixed-channel append patterns, are not covered: there the code diverges
from the per-channel read-time description. -/
theorem C2_amended (c : Channel) (w : ℚ) (events : List (ℚ × ℚ × ℚ))
    (hts : (events.map (fun e => e.2.1)).Pairwise (· ≤ ·))
    (hnow : (events.map (fun e => e.2.2)).Pairwise (· ≤ ·)) :
    get_average (runAppends c.key events (DataAverager.init w)) c.key
      = specAverage (events.map (fun e => (e.2.1, e.1)))
          ((events.map (fun e => e.2.2)).getLastD 0) (w * 60) := by
  rw [runAppends_mkSingle c w events hts hnow]
  unfold get_average specAverage
  simp only [channelOfKey_key, mkSingle, mkChan, if_pos]
  cases hP : (events.map (fun e => (e.2.1, e.1))).filter
      (fun p => decide ((events.map (fun e => e.2.2)).getLastD 0 - w * 60 ≤ p.1)) with
  | nil => simp
  | cons a t => simp

/-- Witness for C2_amended: appends of 10 at time 0 and 20 at time 60 to
cog with a 5-minute window, read at time 60, average to 15. -/
theorem C2_witness :
    get_average (runAppends "cog" [((10 : ℚ), (0 : ℚ), (0 : ℚ)), (20, 60, 60)]
        (DataAverager.init 5)) "cog" = 15 := by
  have h := C2_amended Channel.cog 5 [((10 : ℚ), (0 : ℚ), (0 : ℚ)), (20, 60, 60)]
    (by norm_num [List.pairwise_cons]) (by norm_num [List.pairwise_cons])
  refine h.trans ?_
  norm_num [specAverage, List.filter_cons, List.getLastD_cons]

/-- Claim C4, counterexample: with in-window samples 180 then 0 the raw
difference is exactly −180, which the normalization leaves at −180 — a
value NOT in the claimed half-open interval (−180, 180]. -/
theorem C4_counterexample :
    get_wind_shift (mkSingle Channel.absoluteWindDirection 300 [(0, 180), (10, 0)]) 1 10
      = -180
    ∧ (-180 : ℚ) ∉ Set.Ioc (-180 : ℚ) 180 := by
  refine ⟨?_, by simp⟩
  norm_num [get_wind_shift, mkSingle, mkChan, windowPairs, List.filter_cons]

/-- Claim C4, amended: with the channel aligned to the shared timestamps and
the timestamps non-decreasing, `get_wind_shift` returns 0 when fewer than
two samples are in the window (including an empty channel), and otherwise
returns the last in-window sample minus the first — which are the newest
and oldest, as the listed pair bounds show — wrapped by −360 above 180 and
+360 below −180; for direction samples in [0, 360) the result lies in the
CLOSED interval [−180, 180]. -/
theorem C4_amended (s : DataAverager) (minutes now : ℚ)
    (hsort : s.timestamps.Pairwise (· ≤ ·))
    (hrange : ∀ v ∈ s.chan Channel.absoluteWindDirection, 0 ≤ v ∧ v < 360) :
    ((windowPairs s minutes now).length < 2 → get_wind_shift s minutes now = 0)
    ∧ (2 ≤ (windowPairs s minutes now).length →
        get_wind_shift s minutes now
          = wrapDiff (((windowPairs s minutes now).getLastD (0, 0)).2
              - ((windowPairs s minutes now).headD (0, 0)).2)
        ∧ (∀ p ∈ windowPairs s minutes now,
            ((windowPairs s minutes now).headD (0, 0)).1 ≤ p.1
            ∧ p.1 ≤ ((windowPairs s minutes now).getLastD (0, 0)).1)
        ∧ -180 ≤ get_wind_shift s minutes now
        ∧ get_wind_shift s minutes now ≤ 180) := by
  have hsortP : (windowPairs s minutes now).Pairwise (fun p q => p.1 ≤ q.1) :=
    (pairwise_fst_zip _ _ hsort).filter _
  have hmem_awd : ∀ p ∈ windowPairs s minutes now,
      p.2 ∈ s.chan Channel.absoluteWindDirection := by
    intro p hp
    exact (List.of_mem_zip (List.mem_of_mem_filter hp)).2
  constructor
  · intro hlt
    unfold get_wind_shift
    by_cases hawd : (s.chan Channel.absoluteWindDirection).isEmpty
    · rw [if_pos hawd]
    · rw [if_neg hawd, if_pos (by simpa using hlt)]
  · intro hge
    have hne : windowPairs s minutes now ≠ [] := by
      intro heq
      rw [heq] at hge
      simp at hge
    have hawd : ¬ (s.chan Channel.absoluteWindDirection).isEmpty = true := by
      obtain ⟨p, hp⟩ := List.exists_mem_of_ne_nil _ hne
      have hsnd := hmem_awd p hp
      intro hempty
      rw [List.isEmpty_iff] at hempty
      rw [hempty] at hsnd
      cases hsnd
    have hgws : get_wind_shift s minutes now
        = wrapDiff (((windowPairs s minutes now).getLastD (0, 0)).2
            - ((windowPairs s minutes now).headD (0, 0)).2) := by
      unfold get_wind_shift
      rw [if_neg hawd, if_neg (by simp; omega)]
      rw [getLastD_map_snd0, headD_map_snd0]
      rfl
    have hlastmem := getLastD_mem (windowPairs s minutes now) (0, 0) hne
    have hheadmem := headD_mem (windowPairs s minutes now) (0, 0) hne
    obtain ⟨hA0, hA1⟩ := hrange _ (hmem_awd _ hlastmem)
    obtain ⟨hB0, hB1⟩ := hrange _ (hmem_awd _ hheadmem)
    have hbounds := wrapDiff_bounds
      (d := ((windowPairs s minutes now).getLastD (0, 0)).2
          - ((windowPairs s minutes now).headD (0, 0)).2)
      (by linarith) (by linarith)
    refine ⟨hgws, ?_, ?_, ?_⟩
    · intro p hp
      exact ⟨sorted_headD_le _ _ hsortP p hp, sorted_le_getLastD _ _ hsortP p hp⟩
    · rw [hgws]
      exact hbounds.1
    · rw [hgws]
      exact hbounds.2

/-- Witness for C4_amended: oldest 350 and newest 10 give a wind shift of
20; oldest 10 and newest 350 give −20. -/
theorem C4_witness :
    get_wind_shift (mkSingle Channel.absoluteWindDirection 300 [(0, 350), (10, 10)]) 1 10
      = 20
    ∧ get_wind_shift (mkSingle Channel.absoluteWindDirection 300 [(0, 10), (10, 350)]) 1 10
      = -20 := by
  constructor
  · have h := ((C4_amended (mkSingle Channel.absoluteWindDirection 300 [(0, 350), (10, 10)])
        1 10 (by norm_num [mkSingle, List.pairwise_cons])
        (by norm_num [mkSingle, mkChan])).2
      (by norm_num [windowPairs, mkSingle, mkChan, List.filter_cons, List.zip_cons_cons])).1
    rw [h]
    norm_num [windowPairs, mkSingle, mkChan, List.filter_cons, List.zip_cons_cons,
      List.getLastD_cons, wrapDiff]
  · have h := ((C4_amended (mkSingle Channel.absoluteWindDirection 300 [(0, 10), (10, 350)])
        1 10 (by norm_num [mkSingle, List.pairwise_cons])
        (by norm_num [mkSingle, mkChan])).2
      (by norm_num [windowPairs, mkSingle, mkChan, List.filter_cons, List.zip_cons_cons])).1
    rw [h]
    norm_num [windowPairs, mkSingle, mkChan, List.filter_cons, List.zip_cons_cons,
      List.getLastD_cons, wrapDiff]
